import Mathlib

/-!
Verification development for the differential inverse-kinematics example
repository (examples/arm.py, examples/mobile_stretch.py, tests/test_utils.py).

The repository's own files are glue around an external IK library; the
spec treats the solve-and-integrate loop pattern as the core.  Library
functions exercised by the tests but absent from the repository
(body_minus, spatial_minus, solve_ik, custom_configuration_vector,
VectorSpace, Configuration.integrate) are modelled from the spec, as
documented on each definition.  The example scripts' loops are embedded
directly from their source.
-/

/- ------------------------------------------------------------------ -/
/- Section 1: Lie "minus" operators (pink.tasks.utils, spec section 8/9) -/
/- ------------------------------------------------------------------ -/

/-- Modelled from the spec: `pink.tasks.utils.body_minus` is not under the
visible sources (only `tests/test_utils.py` calls it).  Per the spec, the
"minus" operator is a Lie-group abstraction: the tangent vector of the
relative transform, in the body frame, obtained through the external
collaborator's logarithm `log6`.  `body_minus Y X = log6 (X⁻¹ * Y)`. -/
def body_minus {G V : Type} [Group G] (log6 : G → V) (Y X : G) : V :=
  log6 (X⁻¹ * Y)

/-- Modelled from the spec: `pink.tasks.utils.spatial_minus`, the
spatial-frame variant of the manifold difference:
`spatial_minus Y X = log6 (Y * X⁻¹)`. -/
def spatial_minus {G V : Type} [Group G] (log6 : G → V) (Y X : G) : V :=
  log6 (Y * X⁻¹)

/- ------------------------------------------------------------------ -/
/- Section 2: IK problem assembler and solve step (spec sections 4.3, 4.4) -/
/- ------------------------------------------------------------------ -/

/-- Modelled from the spec: errors of the IK pipeline (spec section 7
taxonomy, restricted to those the solve step can raise). -/
inductive IKError
  | emptyTaskList
  | infeasible
deriving DecidableEq, Repr

/-- Modelled from the spec: a task objective (spec section 4.2) exposes
a residual and a jacobian as functions of the configuration, scaled into
the quadratic cost by a weight.  Configurations and tangent vectors are
rational vectors (exact stand-ins for the floating-point arrays). -/
structure IKTask where
  residual : List ℚ → List ℚ
  jacobian : List ℚ → List (List ℚ)
  weight : ℚ

/-- Modelled from the spec: the posture task, whose residual is the
deviation of the configuration from a rest/target vector and whose
jacobian is the identity on the tangent space.  The sign convention is
fixed jointly by spec section 4.3 (the assembled cost drives
`J v = -residual`) and section 8 (one solve+integrate step must move the
configuration toward the target). -/
def PostureTask (cost : ℚ) (target : List ℚ) : IKTask where
  residual := fun q => (q.zip target).map (fun p => p.1 - p.2)
  jacobian := fun q =>
    (List.range q.length).map
      (fun i => (List.range q.length).map (fun j => if i = j then 1 else 0))
  weight := cost

/-- Modelled from the spec: one stacked block of the assembled QP — a
task's jacobian and residual evaluated at the current configuration,
together with its weight (spec section 4.3: "stacks each task's weighted
residual and jacobian"). -/
structure QPBlock where
  jac : List (List ℚ)
  res : List ℚ
  weight : ℚ

/-- Modelled from the spec: the ephemeral QP problem, assembled fresh
each iteration from the active task list (spec section 3). -/
def QPProblem : Type := List QPBlock

/-- Dot product of two rational vectors. -/
def dotQ (a b : List ℚ) : ℚ := ((a.zip b).map (fun p => p.1 * p.2)).sum

/-- Matrix-vector product over rational lists. -/
def matVecQ (m : List (List ℚ)) (v : List ℚ) : List ℚ :=
  m.map (fun row => dotQ row v)

/-- Squared Euclidean norm of a rational vector. -/
def sqNormQ (a : List ℚ) : ℚ := (a.map (fun x => x * x)).sum

/-- Modelled from the spec: the assembled quadratic cost
`sum_i w_i * ||J_i v - (-residual_i)||^2` of spec section 4.3, as a
function of the candidate tangent velocity. -/
def qpCost (qp : QPProblem) (v : List ℚ) : ℚ :=
  (qp.map (fun b =>
    b.weight * sqNormQ ((matVecQ b.jac v).zip b.res |>.map
      (fun p => p.1 + p.2)))).sum

/-- Modelled from the spec: the assembler `build(configuration, tasks)`
of spec section 4.3, evaluating each active task's residual and jacobian
at the configuration and stacking them; raises `EmptyTaskListError` when
no tasks are active. -/
def build_ik_qp (q : List ℚ) (tasks : List IKTask) :
    Except IKError QPProblem :=
  if tasks.isEmpty then .error .emptyTaskList
  else .ok (tasks.map (fun τ => ⟨τ.jacobian q, τ.residual q, τ.weight⟩))

/-- Modelled from the spec: `solve_ik(configuration, tasks, dt)` — build
the QP from the active tasks, then dispatch it to the pluggable QP
backend (spec section 4.4: the backend is an external capability passed
in); an unsolved problem surfaces as `infeasible`. -/
def solve_ik (backend : QPProblem → Option (List ℚ))
    (q : List ℚ) (tasks : List IKTask) (dt : ℚ) : Except IKError (List ℚ) :=
  match build_ik_qp q tasks with
  | .error e => .error e
  | .ok qp =>
      match backend qp with
      | some v => .ok v
      | none => .error .infeasible

/-- An exact QP backend for the one-degree-of-freedom single-task
problems the spec's end-to-end scenario uses: for a stacked problem with
a single scalar block it returns the unconstrained least-squares
minimiser `v = -r / j`; other shapes are out of its capability. -/
def lsq1 : QPProblem → Option (List ℚ) :=
  fun qp =>
    match qp with
    | [⟨[[j]], [r], _w⟩] => if j = 0 then none else some [-r / j]
    | _ => none

/-- Modelled from the spec: the integrator (spec sections 4.1 and 4.5)
advances the configuration by the velocity over the timestep; on the
vector-space (1-DOF revolute) part of the manifold this is coordinatewise
`q + dt * v`. -/
def integrate (q v : List ℚ) (dt : ℚ) : List ℚ :=
  (q.zip v).map (fun p => p.1 + dt * p.2)

/- ------------------------------------------------------------------ -/
/- Section 3: custom configuration vectors (pink.utils, tests/test_utils.py) -/
/- ------------------------------------------------------------------ -/

/-- A named joint of a kinematic model, with the index of its value in
the configuration vector. -/
structure Joint where
  name : String
  idx_q : Nat
deriving DecidableEq, Repr

/-- Modelled from the spec: the Upkie model's joint layout assumed by
`tests/test_utils.py` — a free-flyer base occupying configuration
indices 0..6 (translation then unit quaternion, neutral w = 1 at
index 6), followed by six revolute joints, with the left knee at
configuration index 8 and the right knee at index 11. -/
def upkie_joints : List Joint :=
  [⟨"left_hip", 7⟩, ⟨"left_knee", 8⟩, ⟨"left_wheel", 9⟩,
   ⟨"right_hip", 10⟩, ⟨"right_knee", 11⟩, ⟨"right_wheel", 12⟩]

/-- Modelled from the spec: the Upkie model's default (neutral)
configuration vector — free-flyer at the origin with identity
orientation, all revolute joints at zero. -/
def upkie_q0 : List ℚ := [0, 0, 0, 0, 0, 0, 1, 0, 0, 0, 0, 0, 0]

/-- Modelled from the spec: `pink.utils.custom_configuration_vector` is
not under the visible sources (only `tests/test_utils.py` calls it).
Per the spec, it starts from the model's default configuration vector
and writes each named joint's value at that joint's configuration
index; an unknown joint name is a configuration error (`none`). -/
def custom_configuration_vector (joints : List Joint) (q0 : List ℚ)
    (args : List (String × ℚ)) : Option (List ℚ) :=
  args.foldlM
    (fun q a =>
      match joints.find? (fun j => j.name == a.1) with
      | some j => some (q.set j.idx_q a.2)
      | none => none)
    q0

/- ------------------------------------------------------------------ -/
/- Section 4: VectorSpace (pink.utils, tests/test_utils.py) -/
/- ------------------------------------------------------------------ -/

/-- Modelled from the spec: `pink.utils.VectorSpace` — a regular
(Euclidean) tangent space, carrying its identity matrix and its
all-ones and all-zeros vectors. -/
structure VectorSpace where
  eye : List (List ℚ)
  ones : List ℚ
  zeros : List ℚ

/-- Modelled from the spec: the `VectorSpace(nv)` constructor, for a
tangent space of dimension `nv`. -/
def mkVectorSpace (nv : Nat) : VectorSpace where
  eye := (List.range nv).map
    (fun i => (List.range nv).map (fun j => if i = j then (1 : ℚ) else 0))
  ones := List.replicate nv 1
  zeros := List.replicate nv 0

/- ------------------------------------------------------------------ -/
/- Section 5: Configuration integration modes (spec section 3) -/
/- ------------------------------------------------------------------ -/

/-- Modelled from the spec: the configuration manifold adapter's state —
the configuration vector with the forward-kinematics data the library
keeps alongside it.  The forward-kinematics update and the manifold
integration primitive are external collaborators, passed as function
arguments `fk` and `intMap`. -/
structure Configuration where
  q : List ℚ
  data : List ℚ
deriving DecidableEq, Repr

/-- Modelled from the spec: `pink.apply_configuration(robot, q)` —
build a configuration from a configuration vector, recomputing the
forward-kinematics data. -/
def apply_configuration (fk : List ℚ → List ℚ) (q : List ℚ) :
    Configuration :=
  ⟨q, fk q⟩

/-- Modelled from the spec: the pure integration mode
`Configuration.integrate(velocity, dt)` returns the advanced
configuration vector without touching the configuration. -/
def Configuration.integrate (intMap : List ℚ → List ℚ → ℚ → List ℚ)
    (c : Configuration) (v : List ℚ) (dt : ℚ) : List ℚ :=
  intMap c.q v dt

/-- Modelled from the spec: the in-place integration mode
`Configuration.integrate_inplace(velocity, dt)` advances the held
configuration vector and refreshes the forward-kinematics data. -/
def Configuration.integrate_inplace (fk : List ℚ → List ℚ)
    (intMap : List ℚ → List ℚ → ℚ → List ℚ)
    (c : Configuration) (v : List ℚ) (dt : ℚ) : Configuration :=
  apply_configuration fk (intMap c.q v dt)

/- ------------------------------------------------------------------ -/
/- Section 6: QP solver selection (examples/mobile_stretch.py, lines 79-82) -/
/- ------------------------------------------------------------------ -/

/-- The name of the preferred QP backend in the mobile_stretch example. -/
def quadprogName : String := "quadprog"

/-- Embedded from examples/mobile_stretch.py lines 80-82:
`solver = qpsolvers.available_solvers[0]` followed by
`if "quadprog" in qpsolvers.available_solvers: solver = "quadprog"`.
Indexing an empty solver list fails (`none`). -/
def select_qp_solver (available_solvers : List String) : Option String :=
  match available_solvers with
  | [] => none
  | first :: _ =>
      some (if available_solvers.contains quadprogName then quadprogName
            else first)

/-- Embedded from examples/mobile_stretch.py: the loop state carried by
the while loop — the time accumulator, the in-place-integrated
configuration vector, and (for observation) the solver names passed to
solve_ik so far, in call order. -/
structure StretchState where
  t : ℚ
  q : List ℚ
  solverCalls : List String
deriving DecidableEq, Repr

/-- Embedded from examples/mobile_stretch.py lines 87-113: one loop
iteration abstracted to what the solver-selection claim observes — the
external solve (a collaborator function of the solver name and the
configuration), the in-place integration, and the advance of the time
accumulator; the solver name passed to solve_ik is recorded. -/
def stretchStep (solveIKExt : String → List ℚ → List ℚ) (dt : ℚ)
    (solver : String) (s : StretchState) : StretchState :=
  let v := solveIKExt solver s.q
  { t := s.t + dt
    q := integrate s.q v dt
    solverCalls := s.solverCalls ++ [solver] }

/-- Embedded from examples/mobile_stretch.py: select the QP solver once
before the loop, then run n iterations with that same solver. -/
def stretchRun (solveIKExt : String → List ℚ → List ℚ) (dt : ℚ)
    (q0 : List ℚ) (available_solvers : List String) (n : Nat) :
    Option StretchState :=
  match select_qp_solver available_solvers with
  | none => none
  | some solver =>
      some ((stretchStep solveIKExt dt solver)^[n] ⟨0, q0, []⟩)

/- ------------------------------------------------------------------ -/
/- Section 7: the arm example control loop (examples/arm.py, lines 56-89) -/
/- ------------------------------------------------------------------ -/

/-- Failures of the external visualization sink (meshcat). -/
inductive VizError
  | displayFailed
  | transformFailed
deriving DecidableEq, Repr

/-- A rigid transform (rotation + translation) with exact rational
entries, standing in for a pin.SE3 target. -/
structure Transform where
  rotation : Fin 3 → Fin 3 → ℚ
  translation : Fin 3 → ℚ

/-- The observable actions of one arm-loop iteration, in the order the
loop body performs them. -/
inductive ArmEvent
  | update_targets
  | set_transform_target
  | set_transform_ee
  | solve
  | integrate_vel
  | display
  | sleep
  | advance_time
deriving DecidableEq, Repr

/-- External collaborators of the arm loop: the trajectory sine
(np.sin), the IK solve (the external library), forward kinematics, the
rate limiter's period, the initial configuration, and the two fallible
visualization calls. -/
structure ArmEnv where
  sinf : ℚ → ℚ
  solveIKArm : List ℚ → Transform → List ℚ
  fk : List ℚ → Transform
  dt : ℚ
  q0 : List ℚ
  display : List ℚ → Except VizError Unit
  setTransform : Transform → Except VizError Unit

/-- The arm loop's state: the time accumulator, the configuration, and
the end-effector task's mutable target. -/
structure ArmState where
  t : ℚ
  q : List ℚ
  target : Transform

/-- Embedded from examples/arm.py lines 56-67: before the loop the task
target is captured from the initial configuration
(set_target_from_configuration) and t starts at 0. -/
def armInit (env : ArmEnv) : ArmState :=
  { t := 0, q := env.q0, target := env.fk env.q0 }

/-- The per-iteration event trace of the arm loop body, in source
order (examples/arm.py lines 68-89). -/
def armIterEvents : List ArmEvent :=
  [.update_targets, .set_transform_target, .set_transform_ee, .solve,
   .integrate_vel, .display, .sleep, .advance_time]

/-- The order of actions named by the loop-structure claim. -/
def armClaimedOrder : List ArmEvent :=
  [.update_targets, .solve, .integrate_vel, .display, .sleep,
   .advance_time]

/-- Embedded from examples/arm.py lines 68-89: one iteration of the
while loop.  The target update writes component 1 of the target's
translation to `0.1 * sin t`; the two viewer set_transform calls and
the viz.display call are unguarded, so a visualization failure
propagates; rate.sleep() is an external no-op here; finally
`t += dt`. -/
def armStep (env : ArmEnv) (s : ArmState) :
    Except VizError (ArmState × List ArmEvent) := do
  let target : Transform :=
    { s.target with
        translation :=
          Function.update s.target.translation 1 (1/10 * env.sinf s.t) }
  let _ ← env.setTransform target
  let _ ← env.setTransform (env.fk s.q)
  let v := env.solveIKArm s.q target
  let q := integrate s.q v env.dt
  let _ ← env.display q
  pure ({ t := s.t + env.dt, q := q, target := target }, armIterEvents)

/-- Embedded from examples/arm.py: n iterations of the while loop,
collecting each iteration's event trace; the first visualization
failure aborts the run, exactly as an uncaught exception would. -/
def armRun (env : ArmEnv) :
    Nat → Except VizError (ArmState × List (List ArmEvent))
  | 0 => .ok (armInit env, [])
  | n+1 => do
      let (s, tr) ← armRun env n
      let (s2, ev) ← armStep env s
      pure (s2, tr ++ [ev])

/-- A benign environment for the arm loop: all collaborators succeed. -/
def armTrivialEnv : ArmEnv where
  sinf := fun _ => 0
  solveIKArm := fun _ _ => [0]
  fk := fun _ => ⟨fun _ _ => 0, fun _ => 0⟩
  dt := 1/200
  q0 := [0]
  display := fun _ => .ok ()
  setTransform := fun _ => .ok ()

/-- The arm-loop environment whose display sink always fails — a
rendering error from the visualizer. -/
def armFailEnv : ArmEnv :=
  { armTrivialEnv with display := fun _ => .error .displayFailed }

/- ------------------------------------------------------------------ -/
/- Theorems -/
/- ------------------------------------------------------------------ -/

/-- The scalar backend is exact on its capability set: for a stacked
problem with one scalar block of nonnegative weight, its output
minimises the assembled quadratic cost. -/
theorem lsq1_minimizes (j r w : ℚ) (hj : j ≠ 0) (hw : 0 ≤ w) (x : ℚ) :
    qpCost [⟨[[j]], [r], w⟩] [-r / j] ≤ qpCost [⟨[[j]], [r], w⟩] [x] := by
  have h0 : j * (-r / j) = -r := by
    field_simp
    ring
  simp only [qpCost, matVecQ, dotQ, sqNormQ, List.map_cons, List.map_nil,
    List.zip_cons_cons, List.zip_nil_right, List.sum_cons, List.sum_nil, h0]
  nlinarith [mul_self_nonneg (j * x + r), hw]

/-- C1: for all SE3 poses X and Y, the manifold minus operators and
exponential integration are mutually inverse in both frames:
`Y = X * exp6 (body_minus Y X)` and `Y = exp6 (spatial_minus Y X) * X`,
assuming the external collaborator's contract that `log6` is a right
inverse of `exp6` on the pose group. -/
theorem minus_exp6_round_trip {G V : Type} [Group G]
    (exp6 : V → G) (log6 : G → V)
    (hlog : ∀ Z : G, exp6 (log6 Z) = Z) (X Y : G) :
    Y = X * exp6 (body_minus log6 Y X) ∧
    Y = exp6 (spatial_minus log6 Y X) * X := by
  constructor
  · rw [body_minus, hlog]
    group
  · rw [spatial_minus, hlog]
    group

/-- Witness for C1: the round trip at a concrete instance of the group
interface (the additive integers, with exp and log the identity maps),
at X = ofAdd 2 and Y = ofAdd 5. -/
theorem minus_exp6_round_trip_witness :
    (Multiplicative.ofAdd (5 : ℤ)) =
      (Multiplicative.ofAdd (2 : ℤ)) *
        Multiplicative.ofAdd
          (body_minus Multiplicative.toAdd (Multiplicative.ofAdd (5 : ℤ))
            (Multiplicative.ofAdd (2 : ℤ))) ∧
    (Multiplicative.ofAdd (5 : ℤ)) =
      Multiplicative.ofAdd
          (spatial_minus Multiplicative.toAdd (Multiplicative.ofAdd (5 : ℤ))
            (Multiplicative.ofAdd (2 : ℤ))) *
        (Multiplicative.ofAdd (2 : ℤ)) :=
  minus_exp6_round_trip Multiplicative.ofAdd Multiplicative.toAdd
    (fun _ => rfl) (Multiplicative.ofAdd (2 : ℤ)) (Multiplicative.ofAdd (5 : ℤ))

/-- C5: building the IK quadratic program (solve_ik) with an empty task
list raises EmptyTaskListError, for every configuration, timestep, and
backend. -/
theorem solve_ik_empty_task_list
    (backend : QPProblem → Option (List ℚ)) (q : List ℚ) (dt : ℚ) :
    solve_ik backend q [] dt = .error .emptyTaskList := by
  simp [solve_ik, build_ik_qp]

/-- C2: for a 1-DOF model with a single posture task of cost 1.0 and
target 0.5, starting from configuration 0.0, one solve_ik step followed
by one integrate step with dt = 0.1 yields configuration 0.05, which is
strictly closer to 0.5 than 0.0 was and does not exceed 0.5. -/
theorem posture_one_step_converges :
    solve_ik lsq1 [0] [PostureTask 1 [1/2]] (1/10) = .ok [1/2] ∧
    integrate [0] [1/2] (1/10) = [1/20] ∧
    |(1/20 : ℚ) - 1/2| < |(0 : ℚ) - 1/2| ∧ (1/20 : ℚ) ≤ 1/2 := by
  refine ⟨?_, ?_, by norm_num [abs], by norm_num⟩
  · norm_num [solve_ik, build_ik_qp, lsq1, PostureTask, List.range_succ,
      List.range_zero]
  · norm_num [integrate]

/-- C6: custom_configuration_vector with left_knee = 0.2 and
right_knee = -0.2 returns a configuration vector whose entries at those
joints' configuration indices (8 and 11 for the Upkie model) equal
exactly 0.2 and -0.2, and every other entry equals its default value. -/
theorem custom_configuration_vector_knees :
    (∃ q, custom_configuration_vector upkie_joints upkie_q0
        [("left_knee", 1/5), ("right_knee", -(1/5))] = some q) ∧
    ∀ q, custom_configuration_vector upkie_joints upkie_q0
        [("left_knee", 1/5), ("right_knee", -(1/5))] = some q →
      q.get? 8 = some (1/5) ∧ q.get? 11 = some (-(1/5)) ∧
      ∀ i, i ≠ 8 → i ≠ 11 → q.get? i = upkie_q0.get? i := by
  have hq : custom_configuration_vector upkie_joints upkie_q0
      [("left_knee", 1/5), ("right_knee", -(1/5))] =
      some [0, 0, 0, 0, 0, 0, 1, 0, 1/5, 0, 0, -(1/5), 0] := by
    simp [custom_configuration_vector, upkie_joints, upkie_q0, List.set,
      List.find?, List.foldlM]
  refine ⟨⟨_, hq⟩, ?_⟩
  intro q hq2
  rw [hq] at hq2
  obtain rfl : _ = q := (Option.some.injEq _ _).mp hq2
  refine ⟨rfl, rfl, ?_⟩
  intro i h8 h11
  rcases Nat.lt_or_ge i 13 with hlt | hge
  · interval_cases i <;>
      first
        | rfl
        | exact absurd rfl h8
        | exact absurd rfl h11
  · have h1 : [(0:ℚ), 0, 0, 0, 0, 0, 1, 0, 1/5, 0, 0, -(1/5), 0].get? i =
        none := List.get?_eq_none.mpr (by simp; omega)
    have h2 : upkie_q0.get? i = none :=
      List.get?_eq_none.mpr (by simp [upkie_q0]; omega)
    rw [h1, h2]

/-- Witness for C6: the theorem applied to the computed configuration
vector, read back at the untouched index 3, where the default persists. -/
theorem custom_configuration_vector_knees_witness :
    [(0:ℚ), 0, 0, 0, 0, 0, 1, 0, 1/5, 0, 0, -(1/5), 0].get? 3 =
      upkie_q0.get? 3 :=
  ((custom_configuration_vector_knees.2
      [0, 0, 0, 0, 0, 0, 1, 0, 1/5, 0, 0, -(1/5), 0]
      (by simp [custom_configuration_vector, upkie_joints, upkie_q0,
        List.set, List.find?, List.foldlM])).2.2) 3
    (by decide) (by decide)

/-- C7: for every tangent-space dimension nv, VectorSpace(nv) has an
identity matrix eye of shape (nv, nv) and all-ones and all-zeros
vectors each of shape (nv,). -/
theorem vector_space_shapes (nv : Nat) :
    (mkVectorSpace nv).eye.length = nv ∧
    (∀ row ∈ (mkVectorSpace nv).eye, row.length = nv) ∧
    (mkVectorSpace nv).ones.length = nv ∧
    (mkVectorSpace nv).zeros.length = nv := by
  refine ⟨by simp [mkVectorSpace], ?_, by simp [mkVectorSpace],
    by simp [mkVectorSpace]⟩
  intro row hrow
  simp only [mkVectorSpace, List.mem_map] at hrow
  obtain ⟨i, _, rfl⟩ := hrow
  simp

/-- Witness for C7: the shape facts at nv = 1, with the single row of
the identity matrix. -/
theorem vector_space_shapes_witness :
    (mkVectorSpace 1).eye.length = 1 ∧ [(1:ℚ)].length = 1 :=
  ⟨(vector_space_shapes 1).1,
    (vector_space_shapes 1).2.1 [1]
      (by simp [mkVectorSpace, List.range_succ])⟩

/-- C8: the two integration modes are equivalent — for every
configuration, velocity and timestep, the configuration vector obtained
by the pure mode (integrate then rebuild via apply_configuration)
equals the configuration vector held after the in-place mode, and the
rebuilt configuration equals the in-place-updated configuration. -/
theorem integrate_modes_equivalent (fk : List ℚ → List ℚ)
    (intMap : List ℚ → List ℚ → ℚ → List ℚ)
    (c : Configuration) (v : List ℚ) (dt : ℚ) :
    (apply_configuration fk (c.integrate intMap v dt)).q =
      (c.integrate_inplace fk intMap v dt).q ∧
    apply_configuration fk (c.integrate intMap v dt) =
      c.integrate_inplace fk intMap v dt :=
  ⟨rfl, rfl⟩

/-- When an arm-loop iteration completes, its time accumulator advanced
by exactly dt, its event trace is the fixed source-order trace, and the
target's rotation and translation components 0 and 2 are untouched. -/
theorem armStep_ok (env : ArmEnv) (s s2 : ArmState) (ev : List ArmEvent)
    (h : armStep env s = .ok (s2, ev)) :
    s2.t = s.t + env.dt ∧ ev = armIterEvents ∧
    s2.target.rotation = s.target.rotation ∧
    s2.target.translation 0 = s.target.translation 0 ∧
    s2.target.translation 2 = s.target.translation 2 := by
  unfold armStep at h
  simp only [bind, Except.bind] at h
  split at h
  · exact absurd h (by simp)
  · split at h
    · exact absurd h (by simp)
    · split at h
      · exact absurd h (by simp)
      · simp only [pure, Except.pure, Except.ok.injEq] at h
        obtain ⟨rfl, rfl⟩ := Prod.mk.injEq .. |>.mp h.symm |>.imp Eq.symm Eq.symm
        refine ⟨rfl, rfl, rfl, ?_, ?_⟩
        · simp [Function.update]
        · simp [Function.update]

/-- C4: every completed iteration of the arm control loop performs, in
source order: update the mutable task target as a function of t, solve
the IK problem, integrate the velocity over dt, hand the configuration
to the visualizer, sleep for the fixed period, and advance t by exactly
the nominal period — so after k completed iterations (the start of
iteration k) the time accumulator equals k times the rate limiter's
period; the loop is defined for every iteration count. -/
theorem arm_loop_order_and_time (env : ArmEnv) (n : Nat)
    (s : ArmState) (tr : List (List ArmEvent))
    (h : armRun env n = .ok (s, tr)) :
    s.t = n * env.dt ∧ tr = List.replicate n armIterEvents ∧
    armClaimedOrder.Sublist armIterEvents := by
  induction n generalizing s tr with
  | zero =>
      simp only [armRun, Except.ok.injEq] at h
      injection h with h1 h2
      subst h1
      subst h2
      exact ⟨by simp [armInit], rfl, by decide⟩
  | succ n ih =>
      rw [armRun] at h
      cases hr : armRun env n with
      | error e => rw [hr] at h; simp [bind, Except.bind] at h
      | ok p =>
          rw [hr] at h
          obtain ⟨s1, tr1⟩ := p
          simp only [bind, Except.bind] at h
          obtain ⟨ht, htr, hsub⟩ := ih s1 tr1 hr
          cases hs : armStep env s1 with
          | error e => rw [hs] at h; simp [bind, Except.bind] at h
          | ok pr =>
              rw [hs] at h
              obtain ⟨s2', ev⟩ := pr
              obtain ⟨hstep_t, hstep_ev, -, -, -⟩ :=
                armStep_ok env s1 s2' ev hs
              simp only [bind, Except.bind, pure, Except.pure,
                Except.ok.injEq] at h
              injection h with h1 h2
              subst h1
              subst h2
              refine ⟨?_, ?_, hsub⟩
              · rw [hstep_t, ht]
                push_cast
                ring
              · rw [htr, hstep_ev, ← List.replicate_succ']

/-- Witness for C4: the loop-order facts at the benign environment and
iteration count 0, where armRun returns the initial state. -/
theorem arm_loop_order_and_time_witness :
    (armInit armTrivialEnv).t = ((0 : ℕ) : ℚ) * armTrivialEnv.dt ∧
    ([] : List (List ArmEvent)) = List.replicate 0 armIterEvents ∧
    armClaimedOrder.Sublist armIterEvents :=
  arm_loop_order_and_time armTrivialEnv 0 (armInit armTrivialEnv) [] rfl

/-- C10: across all completed iterations of the arm loop, the target
update mutates only component 1 of the end-effector target's
translation — its rotation and translation components 0 and 2 stay
equal to the values captured by set_target_from_configuration before
the loop started. -/
theorem arm_target_update_only_y (env : ArmEnv) (n : Nat)
    (s : ArmState) (tr : List (List ArmEvent))
    (h : armRun env n = .ok (s, tr)) :
    s.target.rotation = (env.fk env.q0).rotation ∧
    s.target.translation 0 = (env.fk env.q0).translation 0 ∧
    s.target.translation 2 = (env.fk env.q0).translation 2 := by
  induction n generalizing s tr with
  | zero =>
      simp only [armRun, Except.ok.injEq] at h
      injection h with h1 h2
      subst h1
      exact ⟨rfl, rfl, rfl⟩
  | succ n ih =>
      rw [armRun] at h
      cases hr : armRun env n with
      | error e => rw [hr] at h; simp [bind, Except.bind] at h
      | ok p =>
          rw [hr] at h
          obtain ⟨s1, tr1⟩ := p
          simp only [bind, Except.bind] at h
          obtain ⟨hrot, h0, h2c⟩ := ih s1 tr1 hr
          cases hs : armStep env s1 with
          | error e => rw [hs] at h; simp [bind, Except.bind] at h
          | ok pr =>
              rw [hs] at h
              obtain ⟨s2', ev⟩ := pr
              obtain ⟨-, -, hsrot, hs0, hs2⟩ :=
                armStep_ok env s1 s2' ev hs
              simp only [bind, Except.bind, pure, Except.pure,
                Except.ok.injEq] at h
              injection h with h1 h2
              subst h1
              exact ⟨hsrot.trans hrot, hs0.trans h0, hs2.trans h2c⟩

/-- Witness for C10: the frame-effect facts at the benign environment
and iteration count 0. -/
theorem arm_target_update_only_y_witness :
    (armInit armTrivialEnv).target.rotation =
      (armTrivialEnv.fk armTrivialEnv.q0).rotation ∧
    (armInit armTrivialEnv).target.translation 0 =
      (armTrivialEnv.fk armTrivialEnv.q0).translation 0 ∧
    (armInit armTrivialEnv).target.translation 2 =
      (armTrivialEnv.fk armTrivialEnv.q0).translation 2 :=
  arm_target_update_only_y armTrivialEnv 0 (armInit armTrivialEnv) [] rfl

/-- Counterexample to C3: in the arm loop (embedded from
examples/arm.py, where viz.display is called with no exception
handler), an environment whose display sink always fails terminates the
loop with that error on the first iteration — two requested iterations
are never completed, so the loop does not continue past a rendering
failure. -/
theorem viz_failure_not_swallowed :
    armRun armFailEnv 2 = .error .displayFailed := by
  simp [armRun, armStep, armInit, armFailEnv, armTrivialEnv, bind,
    Except.bind]

/-- C3 (amended): a failure raised by the visualization sink during a
control-loop iteration terminates the control loop — the display call
is unguarded, so for any environment whose display sink fails with e
(and whose viewer transform updates succeed, isolating the display
failure), running at least one iteration propagates e out of the
loop. -/
theorem viz_failure_terminates_loop (env : ArmEnv) (e : VizError)
    (hdisp : ∀ q, env.display q = .error e)
    (hset : ∀ T, env.setTransform T = .ok ())
    (n : Nat) (hn : 1 ≤ n) :
    armRun env n = .error e := by
  induction n with
  | zero => exact absurd hn (by decide)
  | succ n ih =>
      rw [armRun]
      rcases Nat.eq_zero_or_pos n with rfl | hpos
      · simp [armRun, armStep, bind, Except.bind, hset, hdisp]
      · rw [ih hpos]
        simp [bind, Except.bind]

/-- Witness for C3 (amended): the failing-display environment at one
iteration. -/
theorem viz_failure_terminates_loop_witness :
    armRun armFailEnv 1 = .error .displayFailed :=
  viz_failure_terminates_loop armFailEnv .displayFailed (fun _ => rfl)
    (fun _ => rfl) 1 (by decide)

/-- Iterating the stretch loop body appends exactly one record of the
passed solver name per iteration. -/
theorem stretchStep_iterate_calls (f : String → List ℚ → List ℚ)
    (dt : ℚ) (slv : String) (n : Nat) (s : StretchState) :
    ((stretchStep f dt slv)^[n] s).solverCalls =
      s.solverCalls ++ List.replicate n slv := by
  induction n with
  | zero => simp
  | succ n ih =>
      rw [Function.iterate_succ_apply']
      simp [stretchStep, ih, List.replicate_succ', List.append_assoc]

/-- C9: the QP solver selected before the mobile_stretch loop is a
deterministic function of the available solvers — "quadprog" whenever
it is available, otherwise the first available solver — and every
solve_ik call of every completed run is passed exactly that solver. -/
theorem qp_solver_selection (avail : List String) (h : avail ≠ []) :
    (avail.contains quadprogName = true →
      select_qp_solver avail = some quadprogName) ∧
    (avail.contains quadprogName = false →
      select_qp_solver avail = avail.head?) ∧
    ∀ (f : String → List ℚ → List ℚ) (dt : ℚ) (q0 : List ℚ) (n : Nat)
      (s : StretchState), stretchRun f dt q0 avail n = some s →
        ∃ slv, select_qp_solver avail = some slv ∧
          s.solverCalls = List.replicate n slv := by
  match avail, h with
  | (a :: rest), _ =>
    refine ⟨?_, ?_, ?_⟩
    · intro hc
      simp only [select_qp_solver]
      rw [hc]
      simp
    · intro hc
      simp only [select_qp_solver]
      rw [hc]
      simp
    · intro f dt q0 n s hs
      simp only [stretchRun] at hs
      cases hsel : select_qp_solver (a :: rest) with
      | none => rw [hsel] at hs; exact absurd hs (by simp)
      | some slv =>
          rw [hsel] at hs
          simp only [Option.some.injEq] at hs
          subst hs
          exact ⟨slv, rfl,
            by simpa using stretchStep_iterate_calls f dt slv n ⟨0, q0, []⟩⟩

/-- Witness for C9: selection and threading at the singleton solver
list containing "quadprog", with a zero-iteration run. -/
theorem qp_solver_selection_witness :
    select_qp_solver [quadprogName] = some quadprogName ∧
    ∃ slv, select_qp_solver [quadprogName] = some slv ∧
      (⟨0, [0], []⟩ : StretchState).solverCalls = List.replicate 0 slv :=
  ⟨(qp_solver_selection [quadprogName] (by simp)).1 (by simp),
   (qp_solver_selection [quadprogName] (by simp)).2.2 (fun _ _ => [0])
     (1/100) [0] 0 ⟨0, [0], []⟩
     (by simp [stretchRun, select_qp_solver, quadprogName])⟩
